import Mathlib

/-!
Shallow embedding of `torchbnn/modules/conv.py` (classes `_BayesConvNd` and
`BayesConv2d`).

Modelling conventions:
* Tensor scalars are idealized as rationals (`ℚ`); a tensor is its shape
  together with a total map from (multi-)indices to values, which is all the
  layer itself inspects (the sliding-window arithmetic is delegated).
* External collaborators are explicit arguments: `torch.exp` is an arbitrary
  scalar map `e : ℚ → ℚ` applied elementwise, the random generator's draws
  (`torch.randn_like`, `init.kaiming_uniform_`, `init.uniform_`, and the
  uninitialized memory of `torch.Tensor(...)`) are packaged in `RngDraws`,
  and circular padding (`F.pad(mode=circular)`) is an arbitrary function
  `circPad`.
* The convolution engine `F.conv2d` is out of scope per the source's design:
  a forward pass is modelled as the `EngineCall` record of the exact
  arguments handed to the engine, which determines the engine's output.
* Python's `%` raises `ZeroDivisionError` on a zero modulus; `pyMod` returns
  `Except` to model this, and layer construction returns `Except PyError`.
-/

/-- A tensor: a shape together with its element values, indexed by
multi-indices.  Only elementwise structure is needed by the layer. -/
structure Tensor where
  shape : List ℕ
  data : List ℕ → ℚ

theorem Tensor.ext' {a b : Tensor} (hs : a.shape = b.shape)
    (hd : ∀ i, a.data i = b.data i) : a = b := by
  cases a; cases b
  simp only [Tensor.mk.injEq]
  exact ⟨hs, funext hd⟩

/-- Elementwise addition (`+` on same-shaped torch tensors). -/
def Tensor.add (a b : Tensor) : Tensor :=
  ⟨a.shape, fun i => a.data i + b.data i⟩

/-- Elementwise multiplication (`*` on same-shaped torch tensors). -/
def Tensor.mul (a b : Tensor) : Tensor :=
  ⟨a.shape, fun i => a.data i * b.data i⟩

/-- Elementwise application of the scalar exponential collaborator
(`torch.exp`), taken as an explicit function argument. -/
def Tensor.emap (e : ℚ → ℚ) (a : Tensor) : Tensor :=
  ⟨a.shape, fun i => e (a.data i)⟩

/-- A constant-filled tensor (`tensor.data.fill_(c)` keeps the shape and
sets every element to `c`). -/
def Tensor.fill (shape : List ℕ) (c : ℚ) : Tensor :=
  ⟨shape, fun _ => c⟩

/-- The empty placeholder used to totalize `Option.getD` on parameter slots;
constructed layers never reach it (see `init_bias_some`). -/
def Tensor.empty : Tensor := ⟨[], fun _ => 0⟩

/-- Python-level errors this module can raise. -/
inductive PyError where
  | valueError (msg : String)
  | zeroDivisionError
  deriving DecidableEq

/-- Python `%` on nonnegative ints: raises `ZeroDivisionError` when the
modulus is zero. -/
def pyMod (a b : ℕ) : Except PyError ℕ :=
  if b = 0 then .error .zeroDivisionError else .ok (a % b)

/-- The external random draws consumed during construction: the raw
(uninitialized) contents of the four `torch.Tensor` allocations, the
Kaiming-uniform draw for the weight mean, and the bounded-uniform draw for
the bias mean.  The distributions themselves (fan-in bound, `a = sqrt 5`)
are the random generator's business and are not constrained here. -/
structure RngDraws where
  rawW : List ℕ → ℚ
  rawLS : List ℕ → ℚ
  rawBM : List ℕ → ℚ
  rawBLS : List ℕ → ℚ
  kaiming : List ℕ → ℚ
  biasUnif : List ℕ → ℚ

/-- The state of a `_BayesConvNd` module: the constructor arguments it
stores plus the parameter tensors.  `bias` is the boolean flag (the source
assigns `self.bias = bias`); `bias_mu`/`bias_log_sigma` are `none` exactly
when `register_parameter(..., None)` ran. -/
structure BayesConvNd where
  prior_mu : ℚ
  prior_log_sigma : ℚ
  in_channels : ℕ
  out_channels : ℕ
  kernel_size : ℕ × ℕ
  stride : ℕ × ℕ
  padding : ℕ × ℕ
  dilation : ℕ × ℕ
  transposed : Bool
  output_padding : ℕ × ℕ
  groups : ℕ
  bias : Bool
  padding_mode : String
  weight_mu : Tensor
  weight_log_sigma : Tensor
  bias_mu : Option Tensor
  bias_log_sigma : Option Tensor

/-- `_BayesConvNd.reset_parameters`: Kaiming-uniform overwrite of
`weight_mu` (drawn values supplied by `rng.kaiming`), constant fill of
`weight_log_sigma` with `prior_log_sigma`, and, when the bias flag is set,
bounded-uniform overwrite of `bias_mu` and constant fill of
`bias_log_sigma`. -/
def BayesConvNd.reset_parameters (l : BayesConvNd) (rng : RngDraws) :
    BayesConvNd :=
  { l with
    weight_mu := ⟨l.weight_mu.shape, rng.kaiming⟩
    weight_log_sigma := Tensor.fill l.weight_log_sigma.shape l.prior_log_sigma
    bias_mu :=
      if l.bias then l.bias_mu.map (fun t => ⟨t.shape, rng.biasUnif⟩)
      else l.bias_mu
    bias_log_sigma :=
      if l.bias then
        l.bias_log_sigma.map (fun t => Tensor.fill t.shape l.prior_log_sigma)
      else l.bias_log_sigma }

/-- The layer record as it stands right before `reset_parameters` runs:
stored arguments, weight tensors shaped by the transposed/standard rule,
bias slots allocated only when the bias flag is set. -/
def BayesConvNd.alloc (prior_mu prior_log_sigma : ℚ)
    (in_channels out_channels : ℕ)
    (kernel_size stride padding dilation : ℕ × ℕ) (transposed : Bool)
    (output_padding : ℕ × ℕ) (groups : ℕ) (bias : Bool)
    (padding_mode : String) (rng : RngDraws) : BayesConvNd :=
  let wshape : List ℕ :=
    if transposed then
      [in_channels, out_channels / groups, kernel_size.1, kernel_size.2]
    else
      [out_channels, in_channels / groups, kernel_size.1, kernel_size.2]
  { prior_mu := prior_mu
    prior_log_sigma := prior_log_sigma
    in_channels := in_channels
    out_channels := out_channels
    kernel_size := kernel_size
    stride := stride
    padding := padding
    dilation := dilation
    transposed := transposed
    output_padding := output_padding
    groups := groups
    bias := bias
    padding_mode := padding_mode
    weight_mu := ⟨wshape, rng.rawW⟩
    weight_log_sigma := ⟨wshape, rng.rawLS⟩
    bias_mu := if bias then some ⟨[out_channels], rng.rawBM⟩ else none
    bias_log_sigma :=
      if bias then some ⟨[out_channels], rng.rawBLS⟩ else none }

/-- `_BayesConvNd.__init__`: validate the channel/group divisibility (the
Python `%` evaluation itself raises on `groups = 0`), allocate the
parameter tensors, and run `reset_parameters`. -/
def BayesConvNd.init (prior_mu prior_log_sigma : ℚ)
    (in_channels out_channels : ℕ)
    (kernel_size stride padding dilation : ℕ × ℕ) (transposed : Bool)
    (output_padding : ℕ × ℕ) (groups : ℕ) (bias : Bool)
    (padding_mode : String) (rng : RngDraws) : Except PyError BayesConvNd :=
  match pyMod in_channels groups with
  | .error err => .error err
  | .ok r1 =>
    if r1 ≠ 0 then .error (.valueError "in_channels must be divisible by groups")
    else
      match pyMod out_channels groups with
      | .error err => .error err
      | .ok r2 =>
        if r2 ≠ 0 then
          .error (.valueError "out_channels must be divisible by groups")
        else
          .ok ((BayesConvNd.alloc prior_mu prior_log_sigma in_channels
            out_channels kernel_size stride padding dilation transposed
            output_padding groups bias padding_mode rng).reset_parameters rng)

/-- `torch.nn.modules.utils._pair`: repeat a scalar twice, pass a pair
through unchanged. -/
def pairOf : ℕ ⊕ (ℕ × ℕ) → ℕ × ℕ
  | .inl n => (n, n)
  | .inr p => p

/-- `BayesConv2d.__init__`: normalize the spatial arguments with `_pair`
and delegate to `_BayesConvNd.__init__` with `transposed = False` and
`output_padding = _pair(0)`. -/
def BayesConv2d.init (prior_mu prior_log_sigma : ℚ)
    (in_channels out_channels : ℕ)
    (kernel_size stride padding dilation : ℕ ⊕ (ℕ × ℕ)) (groups : ℕ)
    (bias : Bool) (padding_mode : String) (rng : RngDraws) :
    Except PyError BayesConvNd :=
  BayesConvNd.init prior_mu prior_log_sigma in_channels out_channels
    (pairOf kernel_size) (pairOf stride) (pairOf padding) (pairOf dilation)
    false (0, 0) groups bias padding_mode rng

/-- The exact argument tuple handed to the external convolution engine
`F.conv2d(input, weight, bias, stride, padding, dilation, groups)`.  The
engine is deterministic in these arguments, so the call record determines
the forward output. -/
structure EngineCall where
  input : Tensor
  weight : Tensor
  bias : Option Tensor
  stride : ℕ × ℕ
  padding : ℕ × ℕ
  dilation : ℕ × ℕ
  groups : ℕ

/-- The bias sample computed at the top of `conv2d_forward`:
`bias_mu + torch.exp(bias_log_sigma) * randn_like(bias_log_sigma)` when the
bias flag is set, `None` otherwise.  `bNoise` is the standard-normal draw;
constructed layers always have the parameters present when the flag is set
(`init_bias_some`), so the `getD` default is never reached there. -/
def BayesConv2d.sampledBias (e : ℚ → ℚ) (bNoise : Tensor)
    (l : BayesConvNd) : Option Tensor :=
  if l.bias then
    some (Tensor.add (l.bias_mu.getD Tensor.empty)
      (Tensor.mul (Tensor.emap e (l.bias_log_sigma.getD Tensor.empty)) bNoise))
  else none

/-- The asymmetric circular-padding amounts computed in `conv2d_forward`:
`((padding[1]+1)//2, padding[1]//2, (padding[0]+1)//2, padding[0]//2)`,
trailing spatial dimension first, matching `F.pad`'s convention. -/
def BayesConv2d.expandedPadding (l : BayesConvNd) : ℕ × ℕ × ℕ × ℕ :=
  ((l.padding.2 + 1) / 2, l.padding.2 / 2,
   (l.padding.1 + 1) / 2, l.padding.1 / 2)

/-- `BayesConv2d.conv2d_forward`: sample the bias, then either circularly
pre-pad the input (`circPad` models `F.pad(mode=circular)`) and call the
engine with zero explicit padding, or call the engine directly with the
configured padding. -/
def BayesConv2d.conv2d_forward (e : ℚ → ℚ)
    (circPad : Tensor → ℕ × ℕ × ℕ × ℕ → Tensor) (bNoise : Tensor)
    (l : BayesConvNd) (input weight : Tensor) : EngineCall :=
  let bias := BayesConv2d.sampledBias e bNoise l
  if l.padding_mode = "circular" then
    { input := circPad input (BayesConv2d.expandedPadding l)
      weight := weight
      bias := bias
      stride := l.stride
      padding := (0, 0)
      dilation := l.dilation
      groups := l.groups }
  else
    { input := input
      weight := weight
      bias := bias
      stride := l.stride
      padding := l.padding
      dilation := l.dilation
      groups := l.groups }

/-- `BayesConv2d.forward`: sample the weight by the reparameterization
trick, `weight_mu + torch.exp(weight_log_sigma) * randn_like(weight_log_sigma)`,
and hand it to `conv2d_forward`.  `wNoise` is the standard-normal draw. -/
def BayesConv2d.forward (e : ℚ → ℚ)
    (circPad : Tensor → ℕ × ℕ × ℕ × ℕ → Tensor) (wNoise bNoise : Tensor)
    (l : BayesConvNd) (input : Tensor) : EngineCall :=
  let weight :=
    Tensor.add l.weight_mu (Tensor.mul (Tensor.emap e l.weight_log_sigma) wNoise)
  BayesConv2d.conv2d_forward e circPad bNoise l input weight

/-- The layer that a successful `_BayesConvNd.__init__` produces, written
out directly: `alloc` followed by `reset_parameters`. -/
def builtLayer (prior_mu prior_log_sigma : ℚ) (in_channels out_channels : ℕ)
    (kernel_size stride padding dilation : ℕ × ℕ) (transposed : Bool)
    (output_padding : ℕ × ℕ) (groups : ℕ) (bias : Bool)
    (padding_mode : String) (rng : RngDraws) : BayesConvNd :=
  let wshape : List ℕ :=
    if transposed then
      [in_channels, out_channels / groups, kernel_size.1, kernel_size.2]
    else
      [out_channels, in_channels / groups, kernel_size.1, kernel_size.2]
  { prior_mu := prior_mu
    prior_log_sigma := prior_log_sigma
    in_channels := in_channels
    out_channels := out_channels
    kernel_size := kernel_size
    stride := stride
    padding := padding
    dilation := dilation
    transposed := transposed
    output_padding := output_padding
    groups := groups
    bias := bias
    padding_mode := padding_mode
    weight_mu := ⟨wshape, rng.kaiming⟩
    weight_log_sigma := Tensor.fill wshape prior_log_sigma
    bias_mu := if bias then some ⟨[out_channels], rng.biasUnif⟩ else none
    bias_log_sigma :=
      if bias then some (Tensor.fill [out_channels] prior_log_sigma)
      else none }

theorem alloc_reset (pm pls : ℚ) (ic oc : ℕ) (k s p d : ℕ × ℕ) (t : Bool)
    (op : ℕ × ℕ) (g : ℕ) (b : Bool) (mode : String) (rng : RngDraws) :
    (BayesConvNd.alloc pm pls ic oc k s p d t op g b mode rng).reset_parameters
      rng = builtLayer pm pls ic oc k s p d t op g b mode rng := by
  unfold BayesConvNd.alloc BayesConvNd.reset_parameters builtLayer
  cases b <;> cases t <;> rfl

theorem init_ok (pm pls : ℚ) (ic oc : ℕ) (k s p d : ℕ × ℕ) (t : Bool)
    (op : ℕ × ℕ) (g : ℕ) (b : Bool) (mode : String) (rng : RngDraws)
    (hg : g ≠ 0) (h1 : ic % g = 0) (h2 : oc % g = 0) :
    BayesConvNd.init pm pls ic oc k s p d t op g b mode rng =
      .ok (builtLayer pm pls ic oc k s p d t op g b mode rng) := by
  simp [BayesConvNd.init, pyMod, hg, h1, h2, alloc_reset]

theorem init_groups_zero (pm pls : ℚ) (ic oc : ℕ) (k s p d : ℕ × ℕ)
    (t : Bool) (op : ℕ × ℕ) (b : Bool) (mode : String) (rng : RngDraws) :
    BayesConvNd.init pm pls ic oc k s p d t op 0 b mode rng =
      .error .zeroDivisionError := by
  simp [BayesConvNd.init, pyMod]

theorem init_err_in (pm pls : ℚ) (ic oc : ℕ) (k s p d : ℕ × ℕ) (t : Bool)
    (op : ℕ × ℕ) (g : ℕ) (b : Bool) (mode : String) (rng : RngDraws)
    (hg : g ≠ 0) (h1 : ic % g ≠ 0) :
    BayesConvNd.init pm pls ic oc k s p d t op g b mode rng =
      .error (.valueError "in_channels must be divisible by groups") := by
  simp [BayesConvNd.init, pyMod, hg, h1]

theorem init_err_out (pm pls : ℚ) (ic oc : ℕ) (k s p d : ℕ × ℕ) (t : Bool)
    (op : ℕ × ℕ) (g : ℕ) (b : Bool) (mode : String) (rng : RngDraws)
    (hg : g ≠ 0) (h1 : ic % g = 0) (h2 : oc % g ≠ 0) :
    BayesConvNd.init pm pls ic oc k s p d t op g b mode rng =
      .error (.valueError "out_channels must be divisible by groups") := by
  simp [BayesConvNd.init, pyMod, hg, h1, h2]

theorem init_ok_inv {pm pls : ℚ} {ic oc : ℕ} {k s p d : ℕ × ℕ} {t : Bool}
    {op : ℕ × ℕ} {g : ℕ} {b : Bool} {mode : String} {rng : RngDraws}
    {l : BayesConvNd}
    (h : BayesConvNd.init pm pls ic oc k s p d t op g b mode rng = .ok l) :
    g ≠ 0 ∧ ic % g = 0 ∧ oc % g = 0 ∧
      l = builtLayer pm pls ic oc k s p d t op g b mode rng := by
  by_cases hg : g = 0
  · subst hg; rw [init_groups_zero] at h; exact absurd h (by simp)
  · by_cases h1 : ic % g = 0
    · by_cases h2 : oc % g = 0
      · rw [init_ok pm pls ic oc k s p d t op g b mode rng hg h1 h2] at h
        exact ⟨hg, h1, h2, (Except.ok.injEq _ _).mp h.symm⟩
      · rw [init_err_out pm pls ic oc k s p d t op g b mode rng hg h1 h2] at h
        exact absurd h (by simp)
    · rw [init_err_in pm pls ic oc k s p d t op g b mode rng hg h1] at h
      exact absurd h (by simp)

theorem init_bias_some {pm pls : ℚ} {ic oc : ℕ} {k s p d : ℕ × ℕ} {t : Bool}
    {op : ℕ × ℕ} {g : ℕ} {b : Bool} {mode : String} {rng : RngDraws}
    {l : BayesConvNd}
    (h : BayesConvNd.init pm pls ic oc k s p d t op g b mode rng = .ok l)
    (hb : l.bias = true) : l.bias_mu.isSome ∧ l.bias_log_sigma.isSome := by
  obtain ⟨-, -, -, rfl⟩ := init_ok_inv h
  simp only [builtLayer] at hb ⊢
  simp [hb]

/-- Concrete random draws used by the closed witness statements. -/
def rng0 : RngDraws :=
  ⟨fun _ => 0, fun _ => 0, fun _ => 0, fun _ => 0, fun _ => 7, fun _ => 3⟩

/-- C10: the divisibility validation presupposes `groups ≠ 0`: with
`groups = 0` the Python `%` in the check itself raises `ZeroDivisionError`,
so construction fails with a division-by-zero error and never with the
"divisible by groups" `ValueError`. -/
theorem C10_groups_zero_division (pm pls : ℚ) (ic oc : ℕ)
    (k s p d : ℕ × ℕ) (t : Bool) (op : ℕ × ℕ) (b : Bool) (mode : String)
    (rng : RngDraws) :
    BayesConvNd.init pm pls ic oc k s p d t op 0 b mode rng =
      .error .zeroDivisionError ∧
    ∀ msg, BayesConvNd.init pm pls ic oc k s p d t op 0 b mode rng ≠
      .error (.valueError msg) := by
  refine ⟨init_groups_zero pm pls ic oc k s p d t op b mode rng, fun msg hc => ?_⟩
  rw [init_groups_zero pm pls ic oc k s p d t op b mode rng] at hc
  exact absurd ((Except.error.injEq _ _).mp hc) (by simp)

/-- C4: for any positive `groups`, construction fails with the
"divisible by groups" `ValueError` exactly when `in_channels` or
`out_channels` is not divisible by `groups`, and produces a layer exactly
when both are divisible. -/
theorem C4_invalid_configuration (pm pls : ℚ) (ic oc : ℕ) (k s p d : ℕ × ℕ)
    (t : Bool) (op : ℕ × ℕ) (g : ℕ) (b : Bool) (mode : String)
    (rng : RngDraws) (hg : 0 < g) :
    ((∃ msg, BayesConvNd.init pm pls ic oc k s p d t op g b mode rng =
        .error (.valueError msg)) ↔ (¬ g ∣ ic ∨ ¬ g ∣ oc)) ∧
    ((∃ l, BayesConvNd.init pm pls ic oc k s p d t op g b mode rng =
        .ok l) ↔ (g ∣ ic ∧ g ∣ oc)) := by
  have hg' : g ≠ 0 := hg.ne'
  have hdi : g ∣ ic ↔ ic % g = 0 := Nat.dvd_iff_mod_eq_zero
  have hdo : g ∣ oc ↔ oc % g = 0 := Nat.dvd_iff_mod_eq_zero
  by_cases h1 : ic % g = 0
  · by_cases h2 : oc % g = 0
    · rw [init_ok pm pls ic oc k s p d t op g b mode rng hg' h1 h2]
      simp [hdi, hdo, h1, h2]
    · rw [init_err_out pm pls ic oc k s p d t op g b mode rng hg' h1 h2]
      simp [hdi, hdo, h1, h2]
  · rw [init_err_in pm pls ic oc k s p d t op g b mode rng hg' h1]
    simp [hdi, hdo, h1]

/-- Witness for C4 at the claim's own examples: `in_channels = 3`,
`groups = 2` raises the `ValueError` and `in_channels = 4`, `groups = 2`
succeeds (with `out_channels = 6`). -/
theorem C4_witness :
    (∃ msg, BayesConvNd.init 0 0 3 6 (3, 3) (1, 1) (0, 0) (1, 1) false (0, 0)
      2 true "zeros" rng0 = .error (.valueError msg)) ∧
    (∃ l, BayesConvNd.init 0 0 4 6 (3, 3) (1, 1) (0, 0) (1, 1) false (0, 0)
      2 true "zeros" rng0 = .ok l) := by
  constructor
  · exact (C4_invalid_configuration 0 0 3 6 (3, 3) (1, 1) (0, 0) (1, 1) false
      (0, 0) 2 true "zeros" rng0 (by decide)).1.mpr (Or.inl (by decide))
  · exact (C4_invalid_configuration 0 0 4 6 (3, 3) (1, 1) (0, 0) (1, 1) false
      (0, 0) 2 true "zeros" rng0 (by decide)).2.mpr ⟨by decide, by decide⟩

/-- C2: every layer the constructor accepts has `weight_mu` and
`weight_log_sigma` of the same shape, namely
`(out_channels, in_channels / groups, *kernel_size)` when not transposed
and `(in_channels, out_channels / groups, *kernel_size)` when transposed. -/
theorem C2_weight_shape (pm pls : ℚ) (ic oc : ℕ) (k s p d : ℕ × ℕ)
    (t : Bool) (op : ℕ × ℕ) (g : ℕ) (b : Bool) (mode : String)
    (rng : RngDraws) (l : BayesConvNd)
    (h : BayesConvNd.init pm pls ic oc k s p d t op g b mode rng = .ok l) :
    l.weight_mu.shape = l.weight_log_sigma.shape ∧
    l.weight_mu.shape =
      (if t then [ic, oc / g, k.1, k.2] else [oc, ic / g, k.1, k.2]) := by
  obtain ⟨-, -, -, rfl⟩ := init_ok_inv h
  cases t <;> exact ⟨rfl, rfl⟩

/-- Witness for C2 at a concrete non-transposed configuration. -/
theorem C2_witness :
    (builtLayer 0 (-3) 4 6 (3, 5) (1, 1) (0, 0) (1, 1) false (0, 0) 2 true
      "zeros" rng0).weight_mu.shape =
      (builtLayer 0 (-3) 4 6 (3, 5) (1, 1) (0, 0) (1, 1) false (0, 0) 2 true
        "zeros" rng0).weight_log_sigma.shape ∧
    (builtLayer 0 (-3) 4 6 (3, 5) (1, 1) (0, 0) (1, 1) false (0, 0) 2 true
      "zeros" rng0).weight_mu.shape =
      (if false then [4, 6 / 2, 3, 5] else [6, 4 / 2, 3, 5]) :=
  C2_weight_shape 0 (-3) 4 6 (3, 5) (1, 1) (0, 0) (1, 1) false (0, 0) 2 true
    "zeros" rng0 _ (init_ok 0 (-3) 4 6 (3, 5) (1, 1) (0, 0) (1, 1) false
      (0, 0) 2 true "zeros" rng0 (by decide) (by decide) (by decide))

/-- C3: after accepted construction, `bias = False` leaves both bias
statistic slots structurally absent (`none`), while `bias = True` makes
both present with shape `(out_channels,)`. -/
theorem C3_bias_presence (pm pls : ℚ) (ic oc : ℕ) (k s p d : ℕ × ℕ)
    (t : Bool) (op : ℕ × ℕ) (g : ℕ) (b : Bool) (mode : String)
    (rng : RngDraws) (l : BayesConvNd)
    (h : BayesConvNd.init pm pls ic oc k s p d t op g b mode rng = .ok l) :
    (b = false → l.bias_mu = none ∧ l.bias_log_sigma = none) ∧
    (b = true → ∃ bm bls, l.bias_mu = some bm ∧ l.bias_log_sigma = some bls ∧
      bm.shape = [oc] ∧ bls.shape = [oc]) := by
  obtain ⟨-, -, -, rfl⟩ := init_ok_inv h
  cases b
  · exact ⟨fun _ => ⟨rfl, rfl⟩, fun hc => absurd hc (by simp)⟩
  · exact ⟨fun hc => absurd hc (by simp),
      fun _ => ⟨_, _, rfl, rfl, rfl, rfl⟩⟩

/-- Witness for C3 on a concrete `bias = False` construction. -/
theorem C3_witness :
    (builtLayer 0 (-3) 4 6 (3, 3) (1, 1) (0, 0) (1, 1) false (0, 0) 2 false
      "zeros" rng0).bias_mu = none ∧
    (builtLayer 0 (-3) 4 6 (3, 3) (1, 1) (0, 0) (1, 1) false (0, 0) 2 false
      "zeros" rng0).bias_log_sigma = none :=
  (C3_bias_presence 0 (-3) 4 6 (3, 3) (1, 1) (0, 0) (1, 1) false (0, 0) 2
    false "zeros" rng0 _ (init_ok 0 (-3) 4 6 (3, 3) (1, 1) (0, 0) (1, 1)
      false (0, 0) 2 false "zeros" rng0 (by decide) (by decide)
      (by decide))).1 rfl

/-- C5: immediately after accepted construction, every element of
`weight_log_sigma` equals the scalar `prior_log_sigma`, and so does every
element of `bias_log_sigma` whenever it is present. -/
theorem C5_log_sigma_prior_fill (pm pls : ℚ) (ic oc : ℕ) (k s p d : ℕ × ℕ)
    (t : Bool) (op : ℕ × ℕ) (g : ℕ) (b : Bool) (mode : String)
    (rng : RngDraws) (l : BayesConvNd)
    (h : BayesConvNd.init pm pls ic oc k s p d t op g b mode rng = .ok l) :
    (∀ i, l.weight_log_sigma.data i = pls) ∧
    (∀ bls, l.bias_log_sigma = some bls → ∀ i, bls.data i = pls) := by
  obtain ⟨-, -, -, rfl⟩ := init_ok_inv h
  refine ⟨fun i => rfl, fun bls hbls i => ?_⟩
  cases b
  · exact absurd hbls (by simp [builtLayer])
  · have h' : Tensor.fill [oc] pls = bls := by
      simpa [builtLayer] using hbls
    rw [← h']
    rfl

/-- Witness for C5 on a concrete `bias = True` construction with
`prior_log_sigma = -3`. -/
theorem C5_witness :
    (builtLayer 0 (-3) 4 6 (3, 3) (1, 1) (0, 0) (1, 1) false (0, 0) 2
      true "zeros" rng0).weight_log_sigma.data [0, 0, 0, 0] = -3 :=
  (C5_log_sigma_prior_fill 0 (-3) 4 6 (3, 3) (1, 1) (0, 0) (1, 1) false
    (0, 0) 2 true "zeros" rng0 _ (init_ok 0 (-3) 4 6 (3, 3) (1, 1) (0, 0)
      (1, 1) false (0, 0) 2 true "zeros" rng0 (by decide) (by decide)
      (by decide))).1 [0, 0, 0, 0]

/-- C1: on every forward invocation of a constructed layer, the weight
handed to the convolution engine is
`weight_mu + exp(weight_log_sigma) * weight_noise` (noise shaped like the
weight mean), the bias handed over is
`bias_mu + exp(bias_log_sigma) * bias_noise` when the bias flag is set,
and is absent when the flag is unset. -/
theorem C1_forward_reparameterization (e : ℚ → ℚ)
    (circPad : Tensor → ℕ × ℕ × ℕ × ℕ → Tensor) (wNoise bNoise : Tensor)
    (input : Tensor) (pm pls : ℚ) (ic oc : ℕ)
    (k s p d : ℕ ⊕ (ℕ × ℕ)) (g : ℕ) (b : Bool) (mode : String)
    (rng : RngDraws) (l : BayesConvNd)
    (h : BayesConv2d.init pm pls ic oc k s p d g b mode rng = .ok l)
    (hw : wNoise.shape = l.weight_mu.shape) :
    (BayesConv2d.forward e circPad wNoise bNoise l input).weight.shape =
      l.weight_mu.shape ∧
    (∀ i, (BayesConv2d.forward e circPad wNoise bNoise l input).weight.data i
      = l.weight_mu.data i + e (l.weight_log_sigma.data i) * wNoise.data i) ∧
    (b = true → ∃ bm bls, l.bias_mu = some bm ∧ l.bias_log_sigma = some bls ∧
      (BayesConv2d.forward e circPad wNoise bNoise l input).bias =
        some ⟨bm.shape, fun i => bm.data i + e (bls.data i) * bNoise.data i⟩) ∧
    (b = false →
      (BayesConv2d.forward e circPad wNoise bNoise l input).bias = none) := by
  obtain ⟨-, -, -, rfl⟩ := init_ok_inv h
  refine ⟨?_, ?_, ?_, ?_⟩
  · by_cases hc : mode = "circular" <;>
      simp [BayesConv2d.forward, BayesConv2d.conv2d_forward, hc, builtLayer,
        Tensor.add, Tensor.mul, Tensor.emap]
  · intro i
    by_cases hc : mode = "circular" <;>
      simp [BayesConv2d.forward, BayesConv2d.conv2d_forward, hc, builtLayer,
        Tensor.add, Tensor.mul, Tensor.emap]
  · intro hb
    subst hb
    refine ⟨⟨[oc], rng.biasUnif⟩, Tensor.fill [oc] pls, rfl, rfl, ?_⟩
    by_cases hc : mode = "circular" <;>
      simp [BayesConv2d.forward, BayesConv2d.conv2d_forward,
        BayesConv2d.sampledBias, hc, builtLayer, Tensor.add, Tensor.mul,
        Tensor.emap, Tensor.fill]
  · intro hb
    subst hb
    by_cases hc : mode = "circular" <;>
      simp [BayesConv2d.forward, BayesConv2d.conv2d_forward,
        BayesConv2d.sampledBias, hc, builtLayer]

/-- A concrete layer built with bias for the closed witnesses. -/
def layerB : BayesConvNd :=
  builtLayer 0 (-3) 1 1 (3, 3) (1, 1) (1, 1) (1, 1) false (0, 0) 1 true
    "zeros" rng0

/-- A concrete all-ones 1×1×5×5-shaped input tensor. -/
def input0 : Tensor := Tensor.fill [1, 1, 5, 5] 1

/-- Witness for C1 on `layerB` with the identity standing in for the
external exponential and all-ones noise. -/
theorem C1_witness :
    (BayesConv2d.forward (fun x => x) (fun tens _ => tens)
      (Tensor.fill layerB.weight_mu.shape 1)
      (Tensor.fill [1] 1) layerB input0).weight.shape =
      layerB.weight_mu.shape ∧
    (∀ i, (BayesConv2d.forward (fun x => x) (fun tens _ => tens)
      (Tensor.fill layerB.weight_mu.shape 1)
      (Tensor.fill [1] 1) layerB input0).weight.data i
      = layerB.weight_mu.data i + (fun x => x) (layerB.weight_log_sigma.data i)
          * (Tensor.fill layerB.weight_mu.shape 1).data i) ∧
    (true = true → ∃ bm bls, layerB.bias_mu = some bm ∧
      layerB.bias_log_sigma = some bls ∧
      (BayesConv2d.forward (fun x => x) (fun tens _ => tens)
        (Tensor.fill layerB.weight_mu.shape 1)
        (Tensor.fill [1] 1) layerB input0).bias =
        some ⟨bm.shape, fun i => bm.data i + (fun x => x) (bls.data i) *
          (Tensor.fill [1] 1).data i⟩) ∧
    (true = false →
      (BayesConv2d.forward (fun x => x) (fun tens _ => tens)
        (Tensor.fill layerB.weight_mu.shape 1)
        (Tensor.fill [1] 1) layerB input0).bias = none) :=
  C1_forward_reparameterization (fun x => x) (fun tens _ => tens)
    (Tensor.fill layerB.weight_mu.shape 1) (Tensor.fill [1] 1) input0
    0 (-3) 1 1 (.inr (3, 3)) (.inr (1, 1)) (.inr (1, 1)) (.inr (1, 1)) 1
    true "zeros" rng0 layerB
    (init_ok 0 (-3) 1 1 (3, 3) (1, 1) (1, 1) (1, 1) false (0, 0) 1 true
      "zeros" rng0 (by decide) (by decide) (by decide))
    rfl

/-- C6: `conv2d_forward` with `padding_mode = circular` hands the engine
the circularly pre-padded input (pad amounts `((p+1)//2, p//2)` per spatial
dimension, trailing dimension first) and zero explicit padding; any other
mode hands the engine the raw input with the configured padding, stride,
dilation and groups. -/
theorem C6_padding_dispatch (e : ℚ → ℚ)
    (circPad : Tensor → ℕ × ℕ × ℕ × ℕ → Tensor) (bNoise : Tensor)
    (l : BayesConvNd) (input weight : Tensor) :
    (l.padding_mode = "circular" →
      BayesConv2d.conv2d_forward e circPad bNoise l input weight =
        { input := circPad input ((l.padding.2 + 1) / 2, l.padding.2 / 2,
            (l.padding.1 + 1) / 2, l.padding.1 / 2)
          weight := weight
          bias := BayesConv2d.sampledBias e bNoise l
          stride := l.stride
          padding := (0, 0)
          dilation := l.dilation
          groups := l.groups }) ∧
    (l.padding_mode ≠ "circular" →
      BayesConv2d.conv2d_forward e circPad bNoise l input weight =
        { input := input
          weight := weight
          bias := BayesConv2d.sampledBias e bNoise l
          stride := l.stride
          padding := l.padding
          dilation := l.dilation
          groups := l.groups }) := by
  constructor <;> intro hc <;>
    simp [BayesConv2d.conv2d_forward, BayesConv2d.expandedPadding, hc]

/-- A concrete bias-free layer with circular padding mode and
`padding = (1, 1)` for the closed witnesses. -/
def layerC : BayesConvNd :=
  builtLayer 0 (-3) 2 2 (3, 3) (1, 1) (1, 1) (1, 1) false (0, 0) 1 false
    "circular" rng0

/-- Witness for C6 on `layerC`: with `padding = (1, 1)` the expanded
circular pad amounts are `(1, 0, 1, 0)` and the engine gets zero
padding. -/
theorem C6_witness :
    BayesConv2d.conv2d_forward (fun x => x) (fun tens _ => tens)
      (Tensor.fill [1] 1) layerC input0 layerC.weight_mu =
      { input := (fun tens _ => tens) input0
          ((1 : ℕ), (0 : ℕ), (1 : ℕ), (0 : ℕ))
        weight := layerC.weight_mu
        bias := BayesConv2d.sampledBias (fun x => x) (Tensor.fill [1] 1)
          layerC
        stride := (1, 1)
        padding := (0, 0)
        dilation := (1, 1)
        groups := 1 } :=
  (C6_padding_dispatch (fun x => x) (fun tens _ => tens) (Tensor.fill [1] 1)
    layerC input0 layerC.weight_mu).1 rfl

/-- Written from the claim's words, for comparison with the code: "a plain
convolution of the input using weight_mean (and bias_mean if present) with
the configured stride, padding, dilation, and groups". -/
def specPlainConv (l : BayesConvNd) (input : Tensor) : EngineCall :=
  { input := input
    weight := l.weight_mu
    bias := if l.bias then l.bias_mu else none
    stride := l.stride
    padding := l.padding
    dilation := l.dilation
    groups := l.groups }

/-- The engine call the code makes in the zero-sigma limit: the
`conv2d_forward` dispatch applied to the mean weight and mean bias. -/
def deterministicCall (circPad : Tensor → ℕ × ℕ × ℕ × ℕ → Tensor)
    (l : BayesConvNd) (input : Tensor) : EngineCall :=
  if l.padding_mode = "circular" then
    { input := circPad input (BayesConv2d.expandedPadding l)
      weight := l.weight_mu
      bias := if l.bias then l.bias_mu else none
      stride := l.stride
      padding := (0, 0)
      dilation := l.dilation
      groups := l.groups }
  else specPlainConv l input

/-- C7 counterexample: on a circular-mode layer whose log-sigmas all map to
zero under the exponential, the forward engine call is not the plain
convolution with the configured padding — the code calls the engine with
zero padding on the pre-padded input ((0,0) versus the configured
(1,1)). -/
theorem C7_counterexample :
    (∀ i, (fun _ : ℚ => (0 : ℚ)) (layerC.weight_log_sigma.data i) = 0) ∧
    BayesConv2d.forward (fun _ => 0) (fun tens _ => tens) input0 input0
      layerC input0 ≠ specPlainConv layerC input0 := by
  refine ⟨fun i => rfl, fun h => ?_⟩
  have hp := congrArg EngineCall.padding h
  simp [BayesConv2d.forward, BayesConv2d.conv2d_forward, specPlainConv,
    layerC, builtLayer] at hp

/-- C7 amended: when the exponential sends every stored log-sigma element
to zero, the forward pass is noise-independent and performs the layer's
deterministic dispatch on the mean statistics; for every non-circular
padding mode this is exactly the plain convolution with the configured
stride, padding, dilation, and groups. -/
theorem C7_deterministic_limit (e : ℚ → ℚ)
    (circPad : Tensor → ℕ × ℕ × ℕ × ℕ → Tensor) (l : BayesConvNd)
    (input wNoise bNoise : Tensor)
    (hw : ∀ i, e (l.weight_log_sigma.data i) = 0)
    (hbm : l.bias = true → ∃ bm, l.bias_mu = some bm)
    (hbl : l.bias = true → ∃ bls, l.bias_log_sigma = some bls ∧
      ∀ i, e (bls.data i) = 0) :
    BayesConv2d.forward e circPad wNoise bNoise l input =
      deterministicCall circPad l input ∧
    (l.padding_mode ≠ "circular" →
      BayesConv2d.forward e circPad wNoise bNoise l input =
        specPlainConv l input) := by
  have hwt : Tensor.add l.weight_mu
      (Tensor.mul (Tensor.emap e l.weight_log_sigma) wNoise) = l.weight_mu :=
    Tensor.ext' rfl fun i => by
      simp [Tensor.add, Tensor.mul, Tensor.emap, hw i]
  have hbias : BayesConv2d.sampledBias e bNoise l =
      (if l.bias then l.bias_mu else none) := by
    cases hb : l.bias
    · simp [BayesConv2d.sampledBias, hb]
    · obtain ⟨bm, hbm'⟩ := hbm hb
      obtain ⟨bls, hbls, hz⟩ := hbl hb
      simp only [BayesConv2d.sampledBias, hb, if_true, hbm', hbls,
        Option.getD_some]
      exact congrArg some (Tensor.ext' rfl fun i => by
        simp [Tensor.add, Tensor.mul, Tensor.emap, hz i])
  have hf : BayesConv2d.forward e circPad wNoise bNoise l input =
      BayesConv2d.conv2d_forward e circPad bNoise l input l.weight_mu := by
    unfold BayesConv2d.forward
    rw [hwt]
  constructor
  · rw [hf]
    by_cases hc : l.padding_mode = "circular" <;>
      simp [BayesConv2d.conv2d_forward, deterministicCall, specPlainConv,
        hbias, hc]
  · intro hc
    rw [hf]
    simp [BayesConv2d.conv2d_forward, specPlainConv, hbias, hc]

/-- Witness for the amended C7 on `layerB` with the zero map standing in
for the exponential at the deterministic limit. -/
theorem C7_witness :
    BayesConv2d.forward (fun _ => 0) (fun tens _ => tens) input0 input0
      layerB input0 = deterministicCall (fun tens _ => tens) layerB input0 :=
  (C7_deterministic_limit (fun _ => 0) (fun tens _ => tens) layerB input0
    input0 input0 (fun _ => rfl) (fun _ => ⟨_, rfl⟩)
    (fun _ => ⟨Tensor.fill [1] (-3), rfl, fun _ => rfl⟩)).1

/-- A concrete layer built with the unsupported padding mode "reflect". -/
def layerR : BayesConvNd :=
  builtLayer 0 (-3) 1 1 (3, 3) (1, 1) (1, 1) (1, 1) false (0, 0) 1 false
    "reflect" rng0

/-- C8 counterexample: an unsupported padding mode ("reflect") is accepted
at construction and is never detected at forward time either — the first
forward call silently produces the ordinary default-branch engine call,
identical to the one the same layer makes with padding_mode "zeros",
instead of any configuration error. -/
theorem C8_counterexample :
    BayesConvNd.init 0 (-3) 1 1 (3, 3) (1, 1) (1, 1) (1, 1) false (0, 0) 1
      false "reflect" rng0 = .ok layerR ∧
    BayesConv2d.forward (fun x => x) (fun tens _ => tens) input0 input0
      layerR input0 =
      BayesConv2d.forward (fun x => x) (fun tens _ => tens) input0 input0
        { layerR with padding_mode := "zeros" } input0 := by
  constructor
  · exact init_ok 0 (-3) 1 1 (3, 3) (1, 1) (1, 1) (1, 1) false (0, 0) 1
      false "reflect" rng0 (by decide) (by decide) (by decide)
  · rfl

/-- C8 amended: construction with a padding mode other than "circular"
(including unsupported ones) succeeds whenever the divisibility checks
pass, and the mode is never detected as an error: every forward call
silently dispatches to the default zero-padding branch and behaves exactly
as padding_mode "zeros". -/
theorem C8_silent_fallthrough (pm pls : ℚ) (ic oc : ℕ)
    (k s p d : ℕ ⊕ (ℕ × ℕ)) (g : ℕ) (b : Bool) (mode : String)
    (rng : RngDraws) (hg : g ≠ 0) (h1 : ic % g = 0) (h2 : oc % g = 0)
    (hm : mode ≠ "circular") :
    ∃ l, BayesConv2d.init pm pls ic oc k s p d g b mode rng = .ok l ∧
      ∀ e circPad wNoise bNoise input,
        BayesConv2d.forward e circPad wNoise bNoise l input =
        BayesConv2d.forward e circPad wNoise bNoise
          { l with padding_mode := "zeros" } input := by
  refine ⟨_, init_ok pm pls ic oc (pairOf k) (pairOf s) (pairOf p) (pairOf d)
    false (0, 0) g b mode rng hg h1 h2, ?_⟩
  intro e circPad wNoise bNoise input
  simp [BayesConv2d.forward, BayesConv2d.conv2d_forward,
    BayesConv2d.sampledBias, builtLayer, hm]

/-- Witness for the amended C8 at the concrete unsupported mode
"reflect". -/
theorem C8_witness :
    ∃ l, BayesConv2d.init 0 (-3) 1 1 (.inr (3, 3)) (.inr (1, 1))
      (.inr (1, 1)) (.inr (1, 1)) 1 false "reflect" rng0 = .ok l ∧
      ∀ e circPad wNoise bNoise input,
        BayesConv2d.forward e circPad wNoise bNoise l input =
        BayesConv2d.forward e circPad wNoise bNoise
          { l with padding_mode := "zeros" } input :=
  C8_silent_fallthrough 0 (-3) 1 1 (.inr (3, 3)) (.inr (1, 1)) (.inr (1, 1))
    (.inr (1, 1)) 1 false "reflect" rng0 (by decide) (by decide) (by decide)
    (by decide)

/-- C9: `prior_mu` influences nothing: two constructions differing only in
`prior_mu`, with identical random draws, produce identical parameter
tensors and identical forward engine calls on every input. -/
theorem C9_prior_mu_independent (pm pm' pls : ℚ) (ic oc : ℕ)
    (k s p d : ℕ × ℕ) (t : Bool) (op : ℕ × ℕ) (g : ℕ) (b : Bool)
    (mode : String) (rng : RngDraws) (l l' : BayesConvNd)
    (h : BayesConvNd.init pm pls ic oc k s p d t op g b mode rng = .ok l)
    (h' : BayesConvNd.init pm' pls ic oc k s p d t op g b mode rng = .ok l') :
    l.weight_mu = l'.weight_mu ∧ l.weight_log_sigma = l'.weight_log_sigma ∧
    l.bias_mu = l'.bias_mu ∧ l.bias_log_sigma = l'.bias_log_sigma ∧
    ∀ e circPad wNoise bNoise input,
      BayesConv2d.forward e circPad wNoise bNoise l input =
      BayesConv2d.forward e circPad wNoise bNoise l' input := by
  obtain ⟨-, -, -, rfl⟩ := init_ok_inv h
  obtain ⟨-, -, -, rfl⟩ := init_ok_inv h'
  exact ⟨rfl, rfl, rfl, rfl, fun _ _ _ _ _ => rfl⟩

/-- Witness for C9: the same construction with `prior_mu = 0` and
`prior_mu = 5` yields the same weight-mean tensor. -/
theorem C9_witness :
    layerB.weight_mu =
      (builtLayer 5 (-3) 1 1 (3, 3) (1, 1) (1, 1) (1, 1) false (0, 0) 1 true
        "zeros" rng0).weight_mu :=
  (C9_prior_mu_independent 0 5 (-3) 1 1 (3, 3) (1, 1) (1, 1) (1, 1) false
    (0, 0) 1 true "zeros" rng0 layerB _
    (init_ok 0 (-3) 1 1 (3, 3) (1, 1) (1, 1) (1, 1) false (0, 0) 1 true
      "zeros" rng0 (by decide) (by decide) (by decide))
    (init_ok 5 (-3) 1 1 (3, 3) (1, 1) (1, 1) (1, 1) false (0, 0) 1 true
      "zeros" rng0 (by decide) (by decide) (by decide))).1

/-- Witness for C10 at a concrete configuration with `groups = 0`. -/
theorem C10_witness :
    BayesConvNd.init 0 (-3) 3 3 (3, 3) (1, 1) (0, 0) (1, 1) false (0, 0) 0
      true "zeros" rng0 = .error .zeroDivisionError ∧
    BayesConvNd.init 0 (-3) 3 3 (3, 3) (1, 1) (0, 0) (1, 1) false (0, 0) 0
      true "zeros" rng0 ≠
      .error (.valueError "in_channels must be divisible by groups") :=
  ⟨(C10_groups_zero_division 0 (-3) 3 3 (3, 3) (1, 1) (0, 0) (1, 1) false
      (0, 0) true "zeros" rng0).1,
   (C10_groups_zero_division 0 (-3) 3 3 (3, 3) (1, 1) (0, 0) (1, 1) false
      (0, 0) true "zeros" rng0).2 _⟩
